import Mathlib

/-!
Shallow embedding of `src/real_estate_agent/agent.py` (Real Estate Deal
Analyst): the comps-provider resolution logic (`_provider_priority`,
`_clamp_max_results`, `find_comps` with the `_fetch_attom` / `_fetch_estated`
helpers) and the two financial calculators (`mortgage_summary`,
`rent_vs_price`).

Modelling conventions:
* Python floats are modelled as `ℚ`; `round(x, 2)` is modelled by `round2`
  (round half to even at two decimal places, as Python rounds).
* Python strings are Lean `String`; `str.lower()` is `pyLower`,
  `str.strip()` is `pyStrip`, and the `in` substring test is `strIn`.
* Network calls are modelled by a `FetchOutcome` value carried in a
  `CompsEnv` record: `.failure` stands for any request error, timeout or
  JSON-parse failure (the `except Exception: return None` path), and
  `.success payload` for a decoded JSON payload.  The credential presence
  checks (`ATTOM_API_KEY`, `ESTATED_API_KEY` truthiness) are booleans in the
  same record, and the reference CSV table (`_load_comps`) is a list in it:
  these are the outside collaborators of the core.
* Functions that `raise ValueError` return `Except String` with the exact
  message; helpers that return `None` on failure return `Option`.
* CSV rows are carried as `PropertyRecord`s (columns: address, city, state,
  beds, baths, sqft, price, list_date); the code only ever consults the
  `address` cell of a CSV row.
-/

/-- Python `str.lower()` (ASCII case folding, the only case the code meets). -/
def pyLower (s : String) : String := ⟨s.data.map Char.toLower⟩

/-- Python `str.strip()`: drop whitespace from both ends. -/
def pyStrip (s : String) : String :=
  ⟨((s.data.dropWhile Char.isWhitespace).reverse.dropWhile Char.isWhitespace).reverse⟩

/-- Python `pat in hay` on strings: `pat` occurs as a contiguous substring. -/
def strIn (pat hay : String) : Bool :=
  (List.range (hay.data.length + 1)).any (fun i => pat.data.isPrefixOf (hay.data.drop i))

/-- Python truthiness of an optional number (`None`, `0` and `0.0` are falsy). -/
def pyTruthy (v : Option ℚ) : Bool :=
  match v with
  | none => false
  | some x => decide (x ≠ 0)

/-- Round a rational to the nearest integer, ties to even: the rounding mode
of Python `round`. -/
def roundHalfEven (x : ℚ) : ℤ :=
  if 2 * (x.num % (x.den : ℤ)) < (x.den : ℤ) then x.num / (x.den : ℤ)
  else if (x.den : ℤ) < 2 * (x.num % (x.den : ℤ)) then x.num / (x.den : ℤ) + 1
  else if (x.num / (x.den : ℤ)) % 2 = 0 then x.num / (x.den : ℤ)
  else x.num / (x.den : ℤ) + 1

/-- Python `round(x, 2)`. -/
def round2 (x : ℚ) : ℚ := (roundHalfEven (x * 100) : ℚ) / 100

/-- `MAX_RESULTS_HARD_LIMIT = 10`. -/
def MAX_RESULTS_HARD_LIMIT : Nat := 10

/-- `_clamp_max_results`: `None`/`0` and values `< 1` default to 3, larger
values are capped at `MAX_RESULTS_HARD_LIMIT`.  `none` models a falsy/absent
`max_results`. -/
def _clamp_max_results (max_results : Option ℤ) : Nat :=
  match max_results with
  | none => 3
  | some m => if m = 0 ∨ m < 1 then 3 else min m.toNat MAX_RESULTS_HARD_LIMIT

/-- `_provider_priority`: ordered providers for a preferred value.  Python
lowercases the input, replaces anything outside the valid set by `"auto"`,
then dispatches. -/
def _provider_priority (preferred : String) : List String :=
  let p := pyLower preferred
  let q := if p ∈ (["auto", "attom", "estated", "demo"] : List String) then p else "auto"
  if q = "attom" then ["attom", "estated", "demo"]
  else if q = "estated" then ["estated", "attom", "demo"]
  else if q = "demo" then ["demo"]
  else ["attom", "estated", "demo"]

/-- A property record as the tools build and return it (a Python dict with
the keys address, city, state, beds, baths, sqft, price, list_date; absent
values are `none`). -/
structure PropertyRecord where
  address : String
  city : Option String := none
  state : Option String := none
  beds : Option ℚ := none
  baths : Option ℚ := none
  sqft : Option ℚ := none
  price : Option ℚ := none
  list_date : Option String := none
deriving DecidableEq, Repr

/-- The envelope `find_comps` returns: `{"count": _, "source": _, "results": _}`. -/
structure CompsResult where
  count : Nat
  source : String
  results : List PropertyRecord
deriving DecidableEq, Repr

/-- Outcome of one HTTP request: `.failure` is the `except Exception` path
(error, timeout, bad JSON), `.success` carries the decoded payload. -/
inductive FetchOutcome (α : Type) where
  | failure : FetchOutcome α
  | success : α → FetchOutcome α
deriving DecidableEq, Repr

/-- The `address` object of an Estated payload (`data.get("address", {})`,
with a falsy value replaced by `{}`: all-`none` fields model that). -/
structure EstatedAddress where
  street_number : Option String := none
  street_name : Option String := none
  street_suffix : Option String := none
  city : Option String := none
  state : Option String := none
deriving DecidableEq, Repr

/-- The `structure` object of an Estated payload. -/
structure EstatedStructure where
  beds : Option ℚ := none
  baths : Option ℚ := none
  square_feet : Option ℚ := none
deriving DecidableEq, Repr

/-- The `valuation` object of an Estated payload. -/
structure EstatedValuation where
  value : Option ℚ := none
deriving DecidableEq, Repr

/-- One element of the `sales` list of an Estated payload. -/
structure EstatedSale where
  sale_date : Option String := none
deriving DecidableEq, Repr

/-- The `data` object of an Estated payload. -/
structure EstatedData where
  address : EstatedAddress := {}
  struct : EstatedStructure := {}
  valuation : EstatedValuation := {}
  sales : List EstatedSale := []
deriving DecidableEq, Repr

/-- A decoded Estated JSON payload; `data := none` models `payload.get("data")`
being absent or falsy (`if not data: return None`). -/
structure EstatedPayload where
  data : Option EstatedData := none
deriving DecidableEq, Repr

/-- `_format_address`: join the truthy street parts with spaces. -/
def _format_address (data : EstatedData) : String :=
  String.intercalate " "
    ((([data.address.street_number, data.address.street_name,
        data.address.street_suffix].filterMap id).filter (fun p => p ≠ "")))

/-- The single `primary` record `_fetch_estated` builds from the payload. -/
def estated_primary (data : EstatedData) : PropertyRecord :=
  { address := _format_address data
    city := data.address.city
    state := data.address.state
    beds := data.struct.beds
    baths := data.struct.baths
    sqft := data.struct.square_feet
    price := data.valuation.value
    list_date := match data.sales with
                 | [] => none
                 | s :: _ => s.sale_date }

/-- `_fetch_estated`: `None` without a token, on request failure, or when the
payload has no (truthy) `data`; otherwise an `"estated"` envelope whose single
record is included only when the valuation price is truthy. -/
def _fetch_estated (token : Bool) (resp : FetchOutcome EstatedPayload) :
    Option CompsResult :=
  if !token then none
  else
    match resp with
    | .failure => none
    | .success payload =>
      match payload.data with
      | none => none
      | some data =>
        some { count := if pyTruthy data.valuation.value then 1 else 0
               source := "estated"
               results := if pyTruthy data.valuation.value then [estated_primary data] else [] }

/-- The `address` object of one ATTOM property. -/
structure AttomAddress where
  line1 : Option String := none
  line2 : Option String := none
  locality : Option String := none
  countrySubd : Option String := none
deriving DecidableEq, Repr

/-- The `building` object of one ATTOM property (`size.livingsize` flattened). -/
structure AttomBuilding where
  bedrooms : Option ℚ := none
  bathrooms : Option ℚ := none
  size_livingsize : Option ℚ := none
deriving DecidableEq, Repr

/-- The `summary` object of one ATTOM property. -/
structure AttomSummary where
  propLandUse : Option String := none
deriving DecidableEq, Repr

/-- The `sale` object of one ATTOM property. -/
structure AttomSale where
  amount : Option ℚ := none
  saleDate : Option String := none
deriving DecidableEq, Repr

/-- One element of the `property` list of an ATTOM payload. -/
structure AttomProperty where
  address : AttomAddress := {}
  building : AttomBuilding := {}
  summary : AttomSummary := {}
  sale : AttomSale := {}
deriving DecidableEq, Repr

/-- A decoded ATTOM JSON payload; `payload.get("property") or []` makes an
absent or falsy list empty. -/
structure AttomPayload where
  property : List AttomProperty := []
deriving DecidableEq, Repr

/-- Python `a or b` on optional strings: `b` when `a` is `None` or empty. -/
def pyOrStr (a b : Option String) : Option String :=
  match a with
  | none => b
  | some s => if s = "" then b else some s

/-- The record `_fetch_attom` builds from one ATTOM property. -/
def attom_record (p : AttomProperty) : PropertyRecord :=
  { address := pyStrip (String.intercalate " "
      (([p.address.line1, p.address.line2].filterMap id).filter (fun x => x ≠ "")))
    city := p.address.locality
    state := p.address.countrySubd
    beds := p.building.bedrooms
    baths := p.building.bathrooms
    sqft := p.building.size_livingsize
    price := p.sale.amount
    list_date := pyOrStr p.sale.saleDate p.summary.propLandUse }

/-- `_fetch_attom`: `None` without a key, on request failure, or when the
truncated `property` list is empty; otherwise an `"attom"` envelope with one
record per property, price present or not. -/
def _fetch_attom (api_key : Bool) (resp : FetchOutcome AttomPayload)
    (max_results : Nat) : Option CompsResult :=
  if !api_key then none
  else
    match resp with
    | .failure => none
    | .success payload =>
      let props := payload.property.take max_results
      if props.isEmpty then none
      else
        let results := props.map attom_record
        some { count := results.length
               source := "attom"
               results := results }

/-- The outside collaborators `find_comps` reads: credential-presence
booleans, the (modelled) outcome of each remote query, and the reference CSV
table. -/
structure CompsEnv where
  ATTOM_API_KEY : Bool
  ESTATED_API_KEY : Bool
  attomResp : FetchOutcome AttomPayload
  estatedResp : FetchOutcome EstatedPayload
  comps : List PropertyRecord
deriving DecidableEq, Repr

/-- The provider loop of `find_comps`: try each provider in order; a remote
provider is attempted only when its credential is configured, a `None` fetch
falls through to the next provider, and `"demo"` breaks out (the caller then
falls back to the CSV table, as does running off the end of the list). -/
def tryProviders (env : CompsEnv) (limited : Nat) : List String → Option CompsResult
  | [] => none
  | provider :: rest =>
    if provider = "attom" ∧ env.ATTOM_API_KEY then
      match _fetch_attom env.ATTOM_API_KEY env.attomResp limited with
      | some r => some r
      | none => tryProviders env limited rest
    else if provider = "estated" ∧ env.ESTATED_API_KEY then
      match _fetch_estated env.ESTATED_API_KEY env.estatedResp with
      | some r => some r
      | none => tryProviders env limited rest
    else if provider = "demo" then none
    else tryProviders env limited rest

/-- `find_comps`: validate the keyword, clamp `max_results`, walk the
provider order, and fall back to a case-insensitive substring match over the
CSV table. -/
def find_comps (env : CompsEnv) (keyword : String)
    (max_results : Option ℤ := some 3) (preferred_source : String := "auto") :
    Except String CompsResult :=
  if keyword = "" ∨ (pyStrip keyword).length < 3 then
    .error "keyword must be at least 3 characters of address text."
  else
    let limited := _clamp_max_results max_results
    match tryProviders env limited (_provider_priority preferred_source) with
    | some r => .ok r
    | none =>
      let matched := env.comps.filter (fun c => strIn (pyLower keyword) (pyLower c.address))
      let top := matched.take limited
      .ok { count := top.length, source := "demo_csv", results := top }

instance {ε α : Type} [DecidableEq ε] [DecidableEq α] : DecidableEq (Except ε α) :=
  fun x y =>
    match x, y with
    | .ok a, .ok b => if h : a = b then isTrue (by rw [h]) else isFalse (by simp [h])
    | .error e, .error f => if h : e = f then isTrue (by rw [h]) else isFalse (by simp [h])
    | .ok _, .error _ => isFalse (by simp)
    | .error _, .ok _ => isFalse (by simp)

/-- Echo of the raw (unrounded) inputs in a `MortgageResult`. -/
structure MortgageInputs where
  rate_percent : ℚ
  years : ℤ
  taxes_month : ℚ
  insurance_month : ℚ
  hoa_month : ℚ
  rent_month : ℚ
deriving DecidableEq, Repr

/-- The dict `mortgage_summary` returns (all money/ratio fields rounded to
two decimals, inputs echoed raw). -/
structure MortgageResult where
  price : ℚ
  down_payment : ℚ
  loan_amount : ℚ
  ltv_percent : ℚ
  principal_interest : ℚ
  monthly_payment : ℚ
  cashflow : ℚ
  inputs : MortgageInputs
deriving DecidableEq, Repr

/-- The validation of `mortgage_summary`: the `_require_positive` loop over
(price, down_payment, rate_percent, years, taxes_month, insurance_month,
hoa_month, rent_month), then `years < 1`, then `down_payment > price`.
Returns the first error message, or `none` when every check passes. -/
def mortgage_checks (price down_payment rate_percent : ℚ) (years : ℤ)
    (taxes_month insurance_month hoa_month rent_month : ℚ) : Option String :=
  if price < 0 then some "price must be >= 0."
  else if down_payment < 0 then some "down_payment must be >= 0."
  else if rate_percent < 0 then some "rate_percent must be >= 0."
  else if (years : ℚ) < 0 then some "years must be >= 0."
  else if taxes_month < 0 then some "taxes_month must be >= 0."
  else if insurance_month < 0 then some "insurance_month must be >= 0."
  else if hoa_month < 0 then some "hoa_month must be >= 0."
  else if rent_month < 0 then some "rent_month must be >= 0."
  else if years < 1 then some "years must be >= 1."
  else if down_payment > price then some "down_payment cannot exceed price."
  else none

/-- `loan = max(price - down_payment, 0)`. -/
def mortgage_loan (price down_payment : ℚ) : ℚ := max (price - down_payment) 0

/-- `r = rate_percent / 100 / 12`. -/
def mortgage_r (rate_percent : ℚ) : ℚ := rate_percent / 100 / 12

/-- `n = years * 12`. -/
def mortgage_n (years : ℤ) : ℤ := years * 12

/-- `principal_interest`: `loan / n` when the monthly rate is zero (0 when
`n` is zero), otherwise the amortization formula
`loan * (r * (1+r)**n) / ((1+r)**n - 1)`. -/
def mortgage_principal_interest (price down_payment rate_percent : ℚ)
    (years : ℤ) : ℚ :=
  if mortgage_r rate_percent = 0 then
    if mortgage_n years ≠ 0 then
      mortgage_loan price down_payment / ((mortgage_n years : ℤ) : ℚ)
    else 0
  else
    mortgage_loan price down_payment *
        (mortgage_r rate_percent * (1 + mortgage_r rate_percent) ^ mortgage_n years) /
      ((1 + mortgage_r rate_percent) ^ mortgage_n years - 1)

/-- `monthly = principal_interest + taxes_month + insurance_month + hoa_month`. -/
def mortgage_monthly (price down_payment rate_percent : ℚ) (years : ℤ)
    (taxes_month insurance_month hoa_month : ℚ) : ℚ :=
  mortgage_principal_interest price down_payment rate_percent years +
    taxes_month + insurance_month + hoa_month

/-- `cashflow = rent_month - monthly if rent_month else -monthly` (the falsy
check: any nonzero rent takes the first branch). -/
def mortgage_cashflow (price down_payment rate_percent : ℚ) (years : ℤ)
    (taxes_month insurance_month hoa_month rent_month : ℚ) : ℚ :=
  if rent_month ≠ 0 then
    rent_month -
      mortgage_monthly price down_payment rate_percent years taxes_month
        insurance_month hoa_month
  else
    -mortgage_monthly price down_payment rate_percent years taxes_month
        insurance_month hoa_month

/-- `ltv = (loan / price) * 100 if price else 0`. -/
def mortgage_ltv (price down_payment : ℚ) : ℚ :=
  if price ≠ 0 then mortgage_loan price down_payment / price * 100 else 0

/-- `mortgage_summary`: validate, then assemble the rounded summary dict. -/
def mortgage_summary (price down_payment rate_percent : ℚ) (years : ℤ)
    (taxes_month : ℚ := 0) (insurance_month : ℚ := 0) (hoa_month : ℚ := 0)
    (rent_month : ℚ := 0) : Except String MortgageResult :=
  match mortgage_checks price down_payment rate_percent years taxes_month
      insurance_month hoa_month rent_month with
  | some e => .error e
  | none =>
    .ok { price := round2 price
          down_payment := round2 down_payment
          loan_amount := round2 (mortgage_loan price down_payment)
          ltv_percent := round2 (mortgage_ltv price down_payment)
          principal_interest :=
            round2 (mortgage_principal_interest price down_payment rate_percent years)
          monthly_payment :=
            round2 (mortgage_monthly price down_payment rate_percent years
              taxes_month insurance_month hoa_month)
          cashflow :=
            round2 (mortgage_cashflow price down_payment rate_percent years
              taxes_month insurance_month hoa_month rent_month)
          inputs := { rate_percent := rate_percent
                      years := years
                      taxes_month := taxes_month
                      insurance_month := insurance_month
                      hoa_month := hoa_month
                      rent_month := rent_month } }

/-- The dict `rent_vs_price` returns. -/
structure RentValuationResult where
  rent_month : ℚ
  noi : ℚ
  implied_value : ℚ
  target_cap_rate : ℚ
  expense_ratio : ℚ
deriving DecidableEq, Repr

/-- `rent_vs_price`: validate rent, cap rate and expense ratio, then
`noi = rent_month * (1 - expense_ratio) * 12` and
`implied_value = noi / (target_cap_rate / 100)`. -/
def rent_vs_price (rent_month : ℚ) (target_cap_rate : ℚ := 5)
    (expense_ratio : ℚ := 7/20) : Except String RentValuationResult :=
  if rent_month < 0 then .error "rent_month must be >= 0."
  else if ¬(0 < target_cap_rate ∧ target_cap_rate ≤ 25) then
    .error "target_cap_rate must be between 0 and 25."
  else if ¬(0 ≤ expense_ratio ∧ expense_ratio < 1) then
    .error "expense_ratio must be between 0 and 1 (exclusive of 1)."
  else
    let noi := rent_month * (1 - expense_ratio) * 12
    let implied_value := noi / (target_cap_rate / 100)
    .ok { rent_month := round2 rent_month
          noi := round2 noi
          implied_value := round2 implied_value
          target_cap_rate := target_cap_rate
          expense_ratio := expense_ratio }

/-! ### Concrete environments and results used to exercise the theorems -/

/-- An environment with no remote credentials and a small reference table. -/
def envDemo : CompsEnv :=
  { ATTOM_API_KEY := false
    ESTATED_API_KEY := false
    attomResp := .failure
    estatedResp := .failure
    comps := [ { address := "9301 Santa Clara Dr, Forney, TX", city := some "Forney",
                 state := some "TX", price := some 329000 },
               { address := "1201 Meadow Ln, Dallas, TX", city := some "Dallas",
                 state := some "TX", price := some 410000 },
               { address := "455 Windmill Ct, Forney, TX", city := some "Forney",
                 state := some "TX", price := some 305000 } ] }

/-- The envelope the reference-table fallback produces for keyword "Forney"
over `envDemo`. -/
def compsDemoResult : CompsResult :=
  { count := 2, source := "demo_csv",
    results := [ { address := "9301 Santa Clara Dr, Forney, TX", city := some "Forney",
                   state := some "TX", price := some 329000 },
                 { address := "455 Windmill Ct, Forney, TX", city := some "Forney",
                   state := some "TX", price := some 305000 } ] }

/-- An environment whose Estated credential is configured and whose Estated
query succeeds with a data object carrying no valuation price, while the
reference table holds a record matching "Main". -/
def envC1 : CompsEnv :=
  { ATTOM_API_KEY := false
    ESTATED_API_KEY := true
    attomResp := .failure
    estatedResp := .success { data := some {} }
    comps := [ { address := "123 Main St, Forney, TX" } ] }

/-- The summary `mortgage_summary 360000 0 0 30 50 25 25 1500` returns. -/
def mortgageResultExample : MortgageResult :=
  { price := 360000, down_payment := 0, loan_amount := 360000, ltv_percent := 100,
    principal_interest := 1000, monthly_payment := 1100, cashflow := 400,
    inputs := { rate_percent := 0, years := 30, taxes_month := 50,
                insurance_month := 25, hoa_month := 25, rent_month := 1500 } }

/-- The valuation `rent_vs_price 2400 5 (7/20)` returns. -/
def rentResultExample : RentValuationResult :=
  { rent_month := 2400, noi := 18720, implied_value := 374400,
    target_cap_rate := 5, expense_ratio := 7/20 }

/-! ### Helper lemmas -/

lemma clamp_le_hard_limit (mr : Option ℤ) : _clamp_max_results mr ≤ 10 := by
  cases mr with
  | none => decide
  | some m =>
    simp only [_clamp_max_results, MAX_RESULTS_HARD_LIMIT]
    split_ifs <;> omega

lemma one_le_clamp (mr : Option ℤ) : 1 ≤ _clamp_max_results mr := by
  cases mr with
  | none => decide
  | some m =>
    simp only [_clamp_max_results, MAX_RESULTS_HARD_LIMIT]
    split_ifs <;> omega

lemma fetch_estated_length (token : Bool) (resp : FetchOutcome EstatedPayload)
    (r : CompsResult) (h : _fetch_estated token resp = some r) :
    r.results.length ≤ 1 := by
  cases token with
  | false => simp [_fetch_estated] at h
  | true =>
    cases resp with
    | failure => simp [_fetch_estated] at h
    | success payload =>
      cases hd : payload.data with
      | none => simp [_fetch_estated, hd] at h
      | some data =>
        simp only [_fetch_estated, Bool.not_true, Bool.false_eq_true, if_false, hd,
          Option.some.injEq] at h
        rw [← h]
        by_cases hp : pyTruthy data.valuation.value <;> simp [hp]

lemma fetch_attom_length (api_key : Bool) (resp : FetchOutcome AttomPayload)
    (m : Nat) (r : CompsResult) (h : _fetch_attom api_key resp m = some r) :
    r.results.length ≤ m := by
  cases api_key with
  | false => simp [_fetch_attom] at h
  | true =>
    cases resp with
    | failure => simp [_fetch_attom] at h
    | success payload =>
      simp only [_fetch_attom, Bool.not_true, Bool.false_eq_true, if_false] at h
      by_cases he : (payload.property.take m).isEmpty
      · rw [if_pos he] at h
        exact absurd h (by simp)
      · rw [if_neg he] at h
        injection h with h2
        rw [← h2]
        simp only [List.length_map, List.length_take]
        omega

lemma tryProviders_length (env : CompsEnv) (lim : Nat) (order : List String)
    (r : CompsResult) (hlim : 1 ≤ lim)
    (h : tryProviders env lim order = some r) : r.results.length ≤ lim := by
  induction order with
  | nil => simp [tryProviders] at h
  | cons p rest ih =>
    simp only [tryProviders] at h
    split_ifs at h with h1 h2 h3
    · cases hf : _fetch_attom env.ATTOM_API_KEY env.attomResp lim with
      | none => rw [hf] at h; exact ih h
      | some r0 =>
        rw [hf] at h
        simp only [Option.some.injEq] at h
        subst h
        exact fetch_attom_length _ _ _ _ hf
    · cases hf : _fetch_estated env.ESTATED_API_KEY env.estatedResp with
      | none => rw [hf] at h; exact ih h
      | some r0 =>
        rw [hf] at h
        simp only [Option.some.injEq] at h
        subst h
        exact le_trans (fetch_estated_length _ _ _ hf) hlim
    · exact ih h

lemma roundHalfEven_nonneg (x : ℚ) (hx : 0 ≤ x) : 0 ≤ roundHalfEven x := by
  have hn : 0 ≤ x.num := Rat.num_nonneg.mpr hx
  have hd : (0:ℤ) < (x.den : ℤ) := by exact_mod_cast x.den_pos
  have hf : 0 ≤ x.num / (x.den : ℤ) := Int.ediv_nonneg hn hd.le
  unfold roundHalfEven
  split_ifs <;> omega

lemma roundHalfEven_le (x : ℚ) (m : ℤ) (hx : x ≤ (m : ℚ)) : roundHalfEven x ≤ m := by
  have hd : (0:ℤ) < (x.den : ℤ) := by exact_mod_cast x.den_pos
  have hdq : (0:ℚ) < (x.den : ℚ) := by exact_mod_cast x.den_pos
  have hden0 : ((x.den : ℚ)) ≠ 0 := ne_of_gt hdq
  have hkey : (x.den : ℤ) * (x.num / (x.den : ℤ)) + x.num % (x.den : ℤ) = x.num :=
    Int.ediv_add_emod x.num (x.den : ℤ)
  have hr0 : 0 ≤ x.num % (x.den : ℤ) := Int.emod_nonneg x.num (ne_of_gt hd)
  have hrlt : x.num % (x.den : ℤ) < (x.den : ℤ) := Int.emod_lt_of_pos x.num hd
  have hxden : (x.num : ℚ) = x * (x.den : ℚ) := (div_eq_iff hden0).mp (Rat.num_div_den x)
  have h1 : (x.num : ℚ) ≤ (m : ℚ) * (x.den : ℚ) := by
    rw [hxden]
    exact mul_le_mul_of_nonneg_right hx hdq.le
  have h2 : x.num ≤ m * (x.den : ℤ) := by exact_mod_cast h1
  have hcomm : m * (x.den : ℤ) = (x.den : ℤ) * m := mul_comm _ _
  unfold roundHalfEven
  split_ifs with hb1 hb2 hb3
  · have hle : (x.den : ℤ) * (x.num / (x.den : ℤ)) ≤ (x.den : ℤ) * m := by linarith
    exact le_of_mul_le_mul_left hle hd
  · have hr1 : 0 < x.num % (x.den : ℤ) := by linarith
    have hlt : (x.den : ℤ) * (x.num / (x.den : ℤ)) < (x.den : ℤ) * m := by linarith
    have := lt_of_mul_lt_mul_left hlt hd.le
    exact Int.add_one_le_iff.mpr this
  · have hle : (x.den : ℤ) * (x.num / (x.den : ℤ)) ≤ (x.den : ℤ) * m := by linarith
    exact le_of_mul_le_mul_left hle hd
  · have hr1 : 0 < x.num % (x.den : ℤ) := by linarith
    have hlt : (x.den : ℤ) * (x.num / (x.den : ℤ)) < (x.den : ℤ) * m := by linarith
    have := lt_of_mul_lt_mul_left hlt hd.le
    exact Int.add_one_le_iff.mpr this

lemma round2_nonneg (x : ℚ) (hx : 0 ≤ x) : 0 ≤ round2 x := by
  unfold round2
  have h := roundHalfEven_nonneg (x * 100) (by linarith)
  have : (0:ℚ) ≤ (roundHalfEven (x * 100) : ℚ) := by exact_mod_cast h
  linarith

lemma round2_le_100 (x : ℚ) (hx : x ≤ 100) : round2 x ≤ 100 := by
  unfold round2
  have h := roundHalfEven_le (x * 100) 10000 (by push_cast; linarith)
  have : ((roundHalfEven (x * 100)) : ℚ) ≤ 10000 := by exact_mod_cast h
  linarith

lemma round2_zero : round2 0 = 0 := by norm_num [round2, roundHalfEven]

lemma mortgage_checks_none_iff (price down_payment rate_percent : ℚ) (years : ℤ)
    (taxes_month insurance_month hoa_month rent_month : ℚ) :
    mortgage_checks price down_payment rate_percent years taxes_month insurance_month
        hoa_month rent_month = none ↔
      (0 ≤ price ∧ 0 ≤ down_payment ∧ 0 ≤ rate_percent ∧ 0 ≤ taxes_month ∧
       0 ≤ insurance_month ∧ 0 ≤ hoa_month ∧ 0 ≤ rent_month ∧ 1 ≤ years ∧
       down_payment ≤ price) := by
  constructor
  · intro h
    unfold mortgage_checks at h
    by_cases h1 : price < 0
    · rw [if_pos h1] at h; simp at h
    rw [if_neg h1] at h
    by_cases h2 : down_payment < 0
    · rw [if_pos h2] at h; simp at h
    rw [if_neg h2] at h
    by_cases h3 : rate_percent < 0
    · rw [if_pos h3] at h; simp at h
    rw [if_neg h3] at h
    by_cases h4 : (years : ℚ) < 0
    · rw [if_pos h4] at h; simp at h
    rw [if_neg h4] at h
    by_cases h5 : taxes_month < 0
    · rw [if_pos h5] at h; simp at h
    rw [if_neg h5] at h
    by_cases h6 : insurance_month < 0
    · rw [if_pos h6] at h; simp at h
    rw [if_neg h6] at h
    by_cases h7 : hoa_month < 0
    · rw [if_pos h7] at h; simp at h
    rw [if_neg h7] at h
    by_cases h8 : rent_month < 0
    · rw [if_pos h8] at h; simp at h
    rw [if_neg h8] at h
    by_cases h9 : years < 1
    · rw [if_pos h9] at h; simp at h
    rw [if_neg h9] at h
    by_cases h10 : down_payment > price
    · rw [if_pos h10] at h; simp at h
    exact ⟨not_lt.mp h1, not_lt.mp h2, not_lt.mp h3, not_lt.mp h5, not_lt.mp h6,
      not_lt.mp h7, not_lt.mp h8, by omega, not_lt.mp h10⟩
  · rintro ⟨ha, hb, hc, hd, he, hf, hg, hy, hdp⟩
    have hyq : ¬((years : ℚ) < 0) := by
      rw [not_lt]
      exact_mod_cast (show (0:ℤ) ≤ years by omega)
    unfold mortgage_checks
    rw [if_neg (not_lt.mpr ha), if_neg (not_lt.mpr hb), if_neg (not_lt.mpr hc), if_neg hyq,
      if_neg (not_lt.mpr hd), if_neg (not_lt.mpr he), if_neg (not_lt.mpr hf),
      if_neg (not_lt.mpr hg), if_neg (show ¬(years < 1) by omega), if_neg (not_lt.mpr hdp)]

lemma mortgage_example_eval :
    mortgage_summary 360000 0 0 30 50 25 25 1500 = .ok mortgageResultExample := by
  unfold mortgage_summary mortgageResultExample
  have hc : mortgage_checks 360000 0 0 30 50 25 25 1500 = none := by
    unfold mortgage_checks
    norm_num
  rw [hc]
  norm_num [mortgage_loan, mortgage_r, mortgage_n, mortgage_principal_interest,
    mortgage_monthly, mortgage_cashflow, mortgage_ltv, round2, roundHalfEven]

/-! ### Claim theorems -/

/-- Claim C1 (counterexample): with the Estated credential configured and an
Estated query that succeeds with a data object whose valuation price is
absent, `find_comps` returns the Estated envelope (count 0, empty results)
instead of treating the source as a miss and proceeding to the reference
table, although the table holds a record matching the keyword. -/
theorem find_comps_priceless_estated_counterexample :
    find_comps envC1 "Main" (some 3) "auto" =
      .ok { count := 0, source := "estated", results := [] } ∧
    envC1.comps.filter (fun c => strIn (pyLower "Main") (pyLower c.address)) ≠ [] := by
  decide

/-- Claim C1 (amended): a remote source with its credential configured is
returned exactly when its query succeeds with a non-empty payload — a data
object for Estated (price presence only decides whether the single record is
included, count 1 versus count 0), a non-empty property list for ATTOM
(records included with or without a price); only a failed query or an empty
payload is a miss that proceeds to the next source. -/
theorem find_comps_remote_payload_returned :
    (∀ (env : CompsEnv) (kw : String) (mr : Option ℤ) (d : EstatedData),
      ¬(kw = "" ∨ (pyStrip kw).length < 3) →
      env.ATTOM_API_KEY = false →
      env.ESTATED_API_KEY = true →
      env.estatedResp = .success { data := some d } →
      find_comps env kw mr "auto" =
        .ok { count := if pyTruthy d.valuation.value then 1 else 0
              source := "estated"
              results := if pyTruthy d.valuation.value then [estated_primary d] else [] }) ∧
    (∀ (env : CompsEnv) (kw : String) (mr : Option ℤ) (pl : AttomPayload),
      ¬(kw = "" ∨ (pyStrip kw).length < 3) →
      env.ATTOM_API_KEY = true →
      env.attomResp = .success pl →
      pl.property ≠ [] →
      find_comps env kw mr "auto" =
        .ok { count := ((pl.property.take (_clamp_max_results mr)).map attom_record).length
              source := "attom"
              results := (pl.property.take (_clamp_max_results mr)).map attom_record }) := by
  constructor
  · intro env kw mr d hkw hA hE hresp
    have hpp : _provider_priority "auto" = ["attom", "estated", "demo"] := by decide
    simp only [find_comps, hpp]
    rw [if_neg hkw]
    have htp : tryProviders env (_clamp_max_results mr) ["attom", "estated", "demo"] =
        some { count := if pyTruthy d.valuation.value then 1 else 0
               source := "estated"
               results := if pyTruthy d.valuation.value then [estated_primary d] else [] } := by
      simp [tryProviders, hA, hE, hresp, _fetch_estated]
    rw [htp]
  · intro env kw mr pl hkw hA hresp hne
    have hpp : _provider_priority "auto" = ["attom", "estated", "demo"] := by decide
    simp only [find_comps, hpp]
    rw [if_neg hkw]
    have hne2 : (pl.property.take (_clamp_max_results mr)).isEmpty = false := by
      have h1 := one_le_clamp mr
      cases hp : pl.property with
      | nil => exact absurd hp hne
      | cons a l =>
        cases hc : _clamp_max_results mr with
        | zero => omega
        | succ k => simp [List.take]
    have htp : tryProviders env (_clamp_max_results mr) ["attom", "estated", "demo"] =
        some { count := ((pl.property.take (_clamp_max_results mr)).map attom_record).length
               source := "attom"
               results := (pl.property.take (_clamp_max_results mr)).map attom_record } := by
      simp only [tryProviders, hA, hresp, _fetch_attom, hne2]
      simp
    rw [htp]

/-- Claim C1 witness: the amended theorem applied to a concrete environment
whose Estated query succeeds with a price-less data object. -/
theorem find_comps_remote_payload_returned_witness :
    find_comps envC1 "Forney TX" (some 5) "auto" =
      .ok { count := if pyTruthy ({} : EstatedData).valuation.value then 1 else 0
            source := "estated"
            results := if pyTruthy ({} : EstatedData).valuation.value then
                [estated_primary {}] else [] } :=
  find_comps_remote_payload_returned.1 envC1 "Forney TX" (some 5) {} (by decide) rfl rfl rfl

/-- Claim C2: the provider resolver is a pure total function that depends
only on the lowercased input and maps "attom", "estated", "demo" and "auto"
to their documented orders, with every unrecognized value resolving like
"auto". -/
theorem provider_priority_spec :
    (∀ s t : String, pyLower s = pyLower t → _provider_priority s = _provider_priority t) ∧
    _provider_priority "attom" = ["attom", "estated", "demo"] ∧
    _provider_priority "estated" = ["estated", "attom", "demo"] ∧
    _provider_priority "demo" = ["demo"] ∧
    _provider_priority "auto" = ["attom", "estated", "demo"] ∧
    (∀ s : String, pyLower s ∉ (["auto", "attom", "estated", "demo"] : List String) →
      _provider_priority s = ["attom", "estated", "demo"]) := by
  refine ⟨?_, by decide, by decide, by decide, by decide, ?_⟩
  · intro s t h
    unfold _provider_priority
    rw [h]
  · intro s hs
    simp only [_provider_priority, hs, if_false]
    decide

/-- Claim C2 witness: an unrecognized preference resolves to the auto order. -/
theorem provider_priority_spec_witness :
    _provider_priority "Zzz9" = ["attom", "estated", "demo"] :=
  provider_priority_spec.2.2.2.2.2 "Zzz9" (by decide)

/-- Claim C3: `find_comps` raises the invalid-input error exactly when the
stripped keyword is shorter than 3 characters; for any longer keyword it
returns an envelope whatever the environment (every remote failure is
absorbed). -/
theorem find_comps_error_iff :
    ∀ (env : CompsEnv) (kw : String) (mr : Option ℤ) (pref : String),
      (∃ e, find_comps env kw mr pref = .error e) ↔ (pyStrip kw).length < 3 := by
  intro env kw mr pref
  constructor
  · rintro ⟨e, he⟩
    simp only [find_comps] at he
    split_ifs at he with h
    · rcases h with h | h
      · subst h; decide
      · exact h
    · cases htp : tryProviders env (_clamp_max_results mr) (_provider_priority pref) with
      | none => rw [htp] at he; simp at he
      | some r => rw [htp] at he; simp at he
  · intro h
    refine ⟨"keyword must be at least 3 characters of address text.", ?_⟩
    simp only [find_comps]
    rw [if_pos (Or.inr h)]

/-- Claim C3 witness: a two-character keyword raises the invalid-input
error in a concrete environment. -/
theorem find_comps_error_iff_witness :
    ∃ e, find_comps envDemo "ab" (some 3) "auto" = .error e :=
  (find_comps_error_iff envDemo "ab" (some 3) "auto").mpr (by decide)

/-- Claim C4: `_clamp_max_results` sends absent and sub-1 values to 3 and
caps values above 10 at 10, and every envelope `find_comps` returns holds at
most 10 results. -/
theorem find_comps_limit_spec :
    _clamp_max_results none = 3 ∧
    (∀ m : ℤ, m < 1 → _clamp_max_results (some m) = 3) ∧
    (∀ m : ℤ, 10 < m → _clamp_max_results (some m) = 10) ∧
    (∀ (env : CompsEnv) (kw : String) (mr : Option ℤ) (pref : String) (r : CompsResult),
      find_comps env kw mr pref = .ok r → r.results.length ≤ 10) := by
  refine ⟨by decide, ?_, ?_, ?_⟩
  · intro m hm
    simp only [_clamp_max_results]
    rw [if_pos (Or.inr hm)]
  · intro m hm
    simp only [_clamp_max_results, MAX_RESULTS_HARD_LIMIT]
    split_ifs with h
    · omega
    · omega
  · intro env kw mr pref r h
    simp only [find_comps] at h
    split_ifs at h with hkw
    · cases htp : tryProviders env (_clamp_max_results mr) (_provider_priority pref) with
      | some r0 =>
        rw [htp] at h
        simp only [Except.ok.injEq] at h
        subst h
        exact le_trans (tryProviders_length env _ _ _ (one_le_clamp mr) htp)
          (clamp_le_hard_limit mr)
      | none =>
        rw [htp] at h
        simp only [Except.ok.injEq] at h
        rw [← h]
        simp only [List.length_take]
        have := clamp_le_hard_limit mr
        omega

/-- Claim C4 witness: a request with `max_results = 999` returns at most 10
results in a concrete environment. -/
theorem find_comps_limit_spec_witness :
    compsDemoResult.results.length ≤ 10 :=
  find_comps_limit_spec.2.2.2 envDemo "Forney" (some 999) "auto" compsDemoResult (by decide)

/-- Claim C5: when the provider walk yields nothing, `find_comps` answers
from the reference table: source "demo_csv", count equal to the number of
returned rows, and results exactly the case-insensitive substring matches of
the keyword against the address column, in table order, truncated to the
clamped limit. -/
theorem find_comps_demo_fallback :
    ∀ (env : CompsEnv) (kw : String) (mr : Option ℤ) (pref : String) (r : CompsResult),
      tryProviders env (_clamp_max_results mr) (_provider_priority pref) = none →
      find_comps env kw mr pref = .ok r →
      r.source = "demo_csv" ∧
      r.count = r.results.length ∧
      r.results = (env.comps.filter
          (fun c => strIn (pyLower kw) (pyLower c.address))).take (_clamp_max_results mr) ∧
      ∀ c ∈ r.results, strIn (pyLower kw) (pyLower c.address) = true := by
  intro env kw mr pref r htp h
  simp only [find_comps] at h
  split_ifs at h with hkw
  rw [htp] at h
  simp only [Except.ok.injEq] at h
  subst h
  refine ⟨rfl, by simp, rfl, ?_⟩
  intro c hc
  have hmem : c ∈ env.comps.filter (fun c => strIn (pyLower kw) (pyLower c.address)) :=
    List.mem_of_mem_take hc
  exact (List.mem_filter.mp hmem).2

/-- Claim C5 witness: the fallback applied to a concrete credential-free
environment and the keyword "Forney". -/
theorem find_comps_demo_fallback_witness :
    compsDemoResult.source = "demo_csv" ∧
    compsDemoResult.count = compsDemoResult.results.length ∧
    compsDemoResult.results = (envDemo.comps.filter
        (fun c => strIn (pyLower "Forney") (pyLower c.address))).take
          (_clamp_max_results (some 3)) ∧
    ∀ c ∈ compsDemoResult.results, strIn (pyLower "Forney") (pyLower c.address) = true :=
  find_comps_demo_fallback envDemo "Forney" (some 3) "auto" compsDemoResult
    (by decide) (by decide)

/-- Claim C6: on every accepted input with `rate_percent = 0`, the total
period count `n = years * 12` is nonzero (the `n = 0` guard is unreachable)
and the returned `principal_interest` is the straight division
`loan / (years * 12)` rounded to two decimals. -/
theorem mortgage_zero_rate_pi :
    ∀ (price down_payment : ℚ) (years : ℤ)
      (taxes_month insurance_month hoa_month rent_month : ℚ) (r : MortgageResult),
      mortgage_summary price down_payment 0 years taxes_month insurance_month hoa_month
          rent_month = .ok r →
      mortgage_n years ≠ 0 ∧
      r.principal_interest =
        round2 (mortgage_loan price down_payment / ((mortgage_n years : ℤ) : ℚ)) := by
  intro price down_payment years taxes_month insurance_month hoa_month rent_month r h
  cases hc : mortgage_checks price down_payment 0 years taxes_month insurance_month
      hoa_month rent_month with
  | some e => simp [mortgage_summary, hc] at h
  | none =>
    have hy : 1 ≤ years :=
      ((mortgage_checks_none_iff _ _ _ _ _ _ _ _).mp hc).2.2.2.2.2.2.2.1
    have hn : mortgage_n years ≠ 0 := by unfold mortgage_n; omega
    refine ⟨hn, ?_⟩
    simp only [mortgage_summary, hc, Except.ok.injEq] at h
    rw [← h]
    have hr0 : mortgage_r 0 = 0 := by unfold mortgage_r; norm_num
    simp only [mortgage_principal_interest, hr0, if_pos rfl, hn, if_true]
    simp [hn]

/-- Claim C6 witness: the zero-rate law applied to
`mortgage_summary 360000 0 0 30 50 25 25 1500`. -/
theorem mortgage_zero_rate_pi_witness :
    mortgage_n 30 ≠ 0 ∧
    mortgageResultExample.principal_interest =
      round2 (mortgage_loan 360000 0 / ((mortgage_n 30 : ℤ) : ℚ)) :=
  mortgage_zero_rate_pi 360000 0 30 50 25 25 1500 mortgageResultExample
    mortgage_example_eval

/-- Claim C7: every accepted `mortgage_summary` call returns non-negative
price, down payment, loan amount, LTV, principal-and-interest and monthly
payment; the LTV lies in [0, 100], and is 0 when the price is 0 (only the
cashflow may be negative). -/
theorem mortgage_result_bounds :
    ∀ (price down_payment rate_percent : ℚ) (years : ℤ)
      (taxes_month insurance_month hoa_month rent_month : ℚ) (r : MortgageResult),
      mortgage_summary price down_payment rate_percent years taxes_month insurance_month
          hoa_month rent_month = .ok r →
      0 ≤ r.price ∧ 0 ≤ r.down_payment ∧ 0 ≤ r.loan_amount ∧
      0 ≤ r.ltv_percent ∧ r.ltv_percent ≤ 100 ∧ (price = 0 → r.ltv_percent = 0) ∧
      0 ≤ r.principal_interest ∧ 0 ≤ r.monthly_payment := by
  intro price down_payment rate_percent years taxes_month insurance_month hoa_month
    rent_month r h
  cases hc : mortgage_checks price down_payment rate_percent years taxes_month
      insurance_month hoa_month rent_month with
  | some e => simp [mortgage_summary, hc] at h
  | none =>
    obtain ⟨hp, hdp, hrp, ht, hi, hh, hrm, hy, hdple⟩ :=
      (mortgage_checks_none_iff _ _ _ _ _ _ _ _).mp hc
    have hloan0 : 0 ≤ mortgage_loan price down_payment := le_max_right _ 0
    have hloanle : mortgage_loan price down_payment ≤ price :=
      max_le (by linarith) hp
    have hltv0 : 0 ≤ mortgage_ltv price down_payment := by
      unfold mortgage_ltv
      split_ifs with hpz
      · have hppos : 0 < price := lt_of_le_of_ne hp (Ne.symm hpz)
        positivity
      · exact le_refl 0
    have hltv100 : mortgage_ltv price down_payment ≤ 100 := by
      unfold mortgage_ltv
      split_ifs with hpz
      · have hppos : 0 < price := lt_of_le_of_ne hp (Ne.symm hpz)
        have hq : mortgage_loan price down_payment / price ≤ 1 :=
          (div_le_one hppos).mpr hloanle
        linarith
      · norm_num
    have hpi0 : 0 ≤ mortgage_principal_interest price down_payment rate_percent years := by
      unfold mortgage_principal_interest
      have hr0 : 0 ≤ mortgage_r rate_percent := by
        unfold mortgage_r
        positivity
      split_ifs with hrz hnz
      · have hnpos : (0:ℚ) < ((mortgage_n years : ℤ) : ℚ) := by
          have : (0:ℤ) < mortgage_n years := by unfold mortgage_n; omega
          exact_mod_cast this
        exact div_nonneg hloan0 hnpos.le
      · exact le_refl 0
      · have hrpos : 0 < mortgage_r rate_percent := lt_of_le_of_ne hr0 (Ne.symm hrz)
        have hbase : (1:ℚ) < 1 + mortgage_r rate_percent := by linarith
        have hnpos : (0:ℤ) < mortgage_n years := by unfold mortgage_n; omega
        have hpow1 : (1:ℚ) < (1 + mortgage_r rate_percent) ^ mortgage_n years :=
          one_lt_zpow₀ hbase hnpos
        have hpow0 : (0:ℚ) < (1 + mortgage_r rate_percent) ^ mortgage_n years :=
          zpow_pos (by linarith) _
        apply div_nonneg
        · apply mul_nonneg hloan0
          apply mul_nonneg hrpos.le hpow0.le
        · linarith
    have hmon0 : 0 ≤ mortgage_monthly price down_payment rate_percent years taxes_month
        insurance_month hoa_month := by
      unfold mortgage_monthly
      linarith
    simp only [mortgage_summary, hc, Except.ok.injEq] at h
    rw [← h]
    refine ⟨round2_nonneg _ hp, round2_nonneg _ hdp, round2_nonneg _ hloan0,
      round2_nonneg _ hltv0, round2_le_100 _ hltv100, ?_, round2_nonneg _ hpi0,
      round2_nonneg _ hmon0⟩
    intro hpz
    have hz : mortgage_ltv price down_payment = 0 := by
      unfold mortgage_ltv
      rw [if_neg (by simp [hpz])]
    simp only [hz]
    exact round2_zero

/-- Claim C7 witness: the bounds applied to
`mortgage_summary 360000 0 0 30 50 25 25 1500`. -/
theorem mortgage_result_bounds_witness :
    0 ≤ mortgageResultExample.price ∧ 0 ≤ mortgageResultExample.down_payment ∧
    0 ≤ mortgageResultExample.loan_amount ∧ 0 ≤ mortgageResultExample.ltv_percent ∧
    mortgageResultExample.ltv_percent ≤ 100 ∧
    ((360000 : ℚ) = 0 → mortgageResultExample.ltv_percent = 0) ∧
    0 ≤ mortgageResultExample.principal_interest ∧
    0 ≤ mortgageResultExample.monthly_payment :=
  mortgage_result_bounds 360000 0 0 30 50 25 25 1500 mortgageResultExample
    mortgage_example_eval

/-- Claim C8: `mortgage_summary` raises the invalid-input error exactly when
some numeric argument is negative, `years < 1`, or the down payment exceeds
the price; otherwise it returns a summary. -/
theorem mortgage_summary_error_iff :
    ∀ (price down_payment rate_percent : ℚ) (years : ℤ)
      (taxes_month insurance_month hoa_month rent_month : ℚ),
      (∃ e, mortgage_summary price down_payment rate_percent years taxes_month
          insurance_month hoa_month rent_month = .error e) ↔
        (price < 0 ∨ down_payment < 0 ∨ rate_percent < 0 ∨ years < 0 ∨ taxes_month < 0 ∨
         insurance_month < 0 ∨ hoa_month < 0 ∨ rent_month < 0 ∨ years < 1 ∨
         down_payment > price) := by
  intro price down_payment rate_percent years taxes_month insurance_month hoa_month rent_month
  constructor
  · rintro ⟨e, he⟩
    by_contra hcon
    push_neg at hcon
    obtain ⟨h1, h2, h3, h4, h5, h6, h7, h8, h9, h10⟩ := hcon
    have hnone : mortgage_checks price down_payment rate_percent years taxes_month
        insurance_month hoa_month rent_month = none :=
      (mortgage_checks_none_iff _ _ _ _ _ _ _ _).mpr
        ⟨h1, h2, h3, h5, h6, h7, h8, h9, h10⟩
    simp [mortgage_summary, hnone] at he
  · intro hd
    have hne : mortgage_checks price down_payment rate_percent years taxes_month
        insurance_month hoa_month rent_month ≠ none := by
      rw [Ne, mortgage_checks_none_iff]
      rintro ⟨ha, hb, hc, hd2, he2, hf, hg, hy, hdp⟩
      rcases hd with h | h | h | h | h | h | h | h | h | h <;> linarith
    cases hc : mortgage_checks price down_payment rate_percent years taxes_month
        insurance_month hoa_month rent_month with
    | none => exact absurd hc hne
    | some e => exact ⟨e, by simp [mortgage_summary, hc]⟩

/-- Claim C8 witness: a down payment above the price raises the
invalid-input error. -/
theorem mortgage_summary_error_iff_witness :
    ∃ e, mortgage_summary 100 200 5 30 0 0 0 0 = .error e :=
  (mortgage_summary_error_iff 100 200 5 30 0 0 0 0).mpr (by norm_num)

/-- Claim C9: every accepted `rent_vs_price` call returns
`noi = round2 (rent * (1 - expense_ratio) * 12)` and
`implied_value = round2 (noi_pre / (cap / 100))`; zero rent yields zero for
both, and the documented scenario (2400, 5.0, 0.35) yields 18720 and 374400. -/
theorem rent_vs_price_spec :
    (∀ (rent_month target_cap_rate expense_ratio : ℚ) (r : RentValuationResult),
      rent_vs_price rent_month target_cap_rate expense_ratio = .ok r →
      r.noi = round2 (rent_month * (1 - expense_ratio) * 12) ∧
      r.implied_value =
        round2 (rent_month * (1 - expense_ratio) * 12 / (target_cap_rate / 100)) ∧
      (rent_month = 0 → r.noi = 0 ∧ r.implied_value = 0)) ∧
    rent_vs_price 2400 5 (7/20) = .ok rentResultExample := by
  constructor
  · intro rent_month target_cap_rate expense_ratio r h
    unfold rent_vs_price at h
    split_ifs at h with h1 h2 h3
    simp only [Except.ok.injEq] at h
    rw [← h]
    refine ⟨rfl, rfl, ?_⟩
    intro hz
    subst hz
    constructor
    · rw [show ((0:ℚ) * (1 - expense_ratio) * 12) = 0 by ring]
      exact round2_zero
    · rw [show ((0:ℚ) * (1 - expense_ratio) * 12) = 0 by ring, zero_div]
      exact round2_zero
  · unfold rent_vs_price rentResultExample
    rw [if_neg (by norm_num), if_neg (by norm_num), if_neg (by norm_num)]
    have hnoi : ((2400:ℚ) * (1 - 7/20) * 12) = 18720 := by norm_num
    have himp : ((18720:ℚ) / (5 / 100)) = 374400 := by norm_num
    simp only [hnoi, himp]
    have h1 : round2 2400 = 2400 := by norm_num [round2, roundHalfEven]
    have h2 : round2 18720 = 18720 := by norm_num [round2, roundHalfEven]
    have h3 : round2 374400 = 374400 := by norm_num [round2, roundHalfEven]
    rw [h1, h2, h3]

/-- Claim C9 witness: the field laws applied to the documented scenario,
with the hypothesis discharged by the concrete evaluation in the same
theorem. -/
theorem rent_vs_price_spec_witness :
    rentResultExample.noi = round2 (2400 * (1 - 7/20) * 12) ∧
    rentResultExample.implied_value = round2 (2400 * (1 - 7/20) * 12 / (5 / 100)) ∧
    ((2400:ℚ) = 0 → rentResultExample.noi = 0 ∧ rentResultExample.implied_value = 0) :=
  rent_vs_price_spec.1 2400 5 (7/20) rentResultExample rent_vs_price_spec.2

/-- Claim C10: the pre-rounding cashflow equals `rent_month - monthly` for
every input — the falsy-rent branch returns `-monthly`, which coincides at
`rent_month = 0` — and consequently the returned cashflow field is always
`round2 (rent_month - monthly)`. -/
theorem mortgage_cashflow_rent_minus_monthly :
    (∀ (price down_payment rate_percent : ℚ) (years : ℤ)
      (taxes_month insurance_month hoa_month rent_month : ℚ),
      mortgage_cashflow price down_payment rate_percent years taxes_month insurance_month
          hoa_month rent_month =
        rent_month - mortgage_monthly price down_payment rate_percent years taxes_month
          insurance_month hoa_month) ∧
    (∀ (price down_payment rate_percent : ℚ) (years : ℤ)
      (taxes_month insurance_month hoa_month rent_month : ℚ) (r : MortgageResult),
      mortgage_summary price down_payment rate_percent years taxes_month insurance_month
          hoa_month rent_month = .ok r →
      r.cashflow = round2 (rent_month - mortgage_monthly price down_payment rate_percent
        years taxes_month insurance_month hoa_month)) := by
  have hbase : ∀ (price down_payment rate_percent : ℚ) (years : ℤ)
      (taxes_month insurance_month hoa_month rent_month : ℚ),
      mortgage_cashflow price down_payment rate_percent years taxes_month insurance_month
          hoa_month rent_month =
        rent_month - mortgage_monthly price down_payment rate_percent years taxes_month
          insurance_month hoa_month := by
    intro price down_payment rate_percent years taxes_month insurance_month hoa_month
      rent_month
    unfold mortgage_cashflow
    split_ifs with hz
    · rfl
    · push_neg at hz
      rw [hz]
      ring
  refine ⟨hbase, ?_⟩
  intro price down_payment rate_percent years taxes_month insurance_month hoa_month
    rent_month r h
  cases hc : mortgage_checks price down_payment rate_percent years taxes_month
      insurance_month hoa_month rent_month with
  | some e => simp [mortgage_summary, hc] at h
  | none =>
    simp only [mortgage_summary, hc, Except.ok.injEq] at h
    rw [← h]
    simp only [hbase]

/-- Claim C10 witness: the cashflow law applied to
`mortgage_summary 360000 0 0 30 50 25 25 1500`. -/
theorem mortgage_cashflow_rent_minus_monthly_witness :
    mortgageResultExample.cashflow =
      round2 (1500 - mortgage_monthly 360000 0 0 30 50 25 25) :=
  mortgage_cashflow_rent_minus_monthly.2 360000 0 0 30 50 25 25 1500
    mortgageResultExample mortgage_example_eval
